import Mathlib

/-!
Shallow embedding of the bento-ts loader (src/index.ts): the script
injector, the loader-state bookkeeping, the deferred dispatch proxy and
the bounded per-method wait, together with proofs of the specified
properties.  The runtime is single-threaded and event-loop driven, so
each asynchronous construct is embedded as an explicit state machine
whose events are the callbacks the event loop can run.
-/

namespace BentoTs

/-- Abstract model of a method-call argument value. -/
abbrev Arg := String

def exceptDecEq {α β : Type} [DecidableEq α] [DecidableEq β] :
    DecidableEq (Except α β) := fun a b =>
  match a, b with
  | Except.error x, Except.error y =>
    if h : x = y then isTrue (by rw [h])
    else isFalse (fun hc => h (Except.error.inj hc))
  | Except.ok x, Except.ok y =>
    if h : x = y then isTrue (by rw [h])
    else isFalse (fun hc => h (Except.ok.inj hc))
  | Except.error _, Except.ok _ => isFalse (fun hc => Except.noConfusion hc)
  | Except.ok _, Except.error _ => isFalse (fun hc => Except.noConfusion hc)

instance : DecidableEq (Except String Bool) := exceptDecEq

/-- The target API binding (the window.bento global): its function-valued
keys, the value its getEmail returns, and the settlement of the promise
its spamCheck returns. -/
structure BentoAPI where
  methods : List String
  getEmailResult : Option String
  spamCheckOutcome : Except String Bool
deriving DecidableEq, Repr

instance : DecidableEq (Except String BentoAPI) := exceptDecEq

/-- Models typeof (window.bento)[m] === function. -/
def hasMethod (api : BentoAPI) (m : String) : Bool :=
  api.methods.contains m

/-! ## Script injector (injectScript) -/

/-- State of one injectScript call: the hasResolved guard, whether the
bento:ready listener is registered, whether the timeout timer is armed,
whether the created script element is attached to document.head, and the
settlement of the returned promise (none while pending). -/
structure InjState where
  hasResolved : Bool
  readyListener : Bool
  timerActive : Bool
  scriptInDoc : Bool
  result : Option (Except String BentoAPI)
deriving DecidableEq, Repr

def networkErrorMsg (src : String) : String :=
  "Failed to load Bento script from " ++ src ++
    ". This could be due to network issues, ad blockers, or invalid site configuration."

def notInitializedMsg : String :=
  "Bento script loaded but did not properly initialize"

def timeoutErrorMsg (timeout : Nat) : String :=
  "Bento script loading timed out after " ++ toString (timeout / 1000) ++
    " seconds. Please check your network connection and site configuration."

/-- cleanup(removeScript): remove the bento:ready listener, clear the
timer, and remove the script element from the document only when asked
to (and only when it is still attached). -/
def cleanup (removeScript : Bool) (s : InjState) : InjState :=
  { s with
    readyListener := false
    timerActive := false
    scriptInDoc := if removeScript then false else s.scriptInDoc }

/-- handleSuccess: settle the promise with the binding, once. -/
def handleSuccess (api : BentoAPI) (s : InjState) : InjState :=
  if s.hasResolved then s
  else { cleanup false s with hasResolved := true, result := some (Except.ok api) }

/-- handleError: settle the promise with an error, once, removing the
script element. -/
def handleError (msg : String) (s : InjState) : InjState :=
  if s.hasResolved then s
  else { cleanup true s with hasResolved := true, result := some (Except.error msg) }

/-- handleReady: the bento:ready callback reads window.bento at event
time; an absent binding is an initialization error. -/
def handleReady (bento : Option BentoAPI) (s : InjState) : InjState :=
  match bento with
  | some api => handleSuccess api s
  | none => handleError notInitializedMsg s

/-- Entry of injectScript: if window.bento is already populated the
promise resolves at once and no script, listener or timer is created;
otherwise a script element is appended to document.head with the
bento:ready listener and the timeout timer armed. -/
def injectScriptStart (bento : Option BentoAPI) : InjState :=
  match bento with
  | some api =>
    { hasResolved := true, readyListener := false, timerActive := false
      scriptInDoc := false, result := some (Except.ok api) }
  | none =>
    { hasResolved := false, readyListener := true, timerActive := true
      scriptInDoc := true, result := none }

/-- The three callbacks the event loop can run for one injectScript
call: the bento:ready event (carrying the value of window.bento at that
moment), the script error event, and the timeout timer firing. -/
inductive InjEvent
  | ready (bento : Option BentoAPI)
  | scriptError
  | timerFire
deriving DecidableEq, Repr

/-- One event-loop step of the injector.  The ready callback runs only
while its listener is registered; the timer callback runs only while the
timer has not been cleared; the script onerror handler is guarded by
hasResolved inside handleError. -/
def istep (src : String) (timeout : Nat) (s : InjState) (e : InjEvent) : InjState :=
  match e with
  | InjEvent.ready b => if s.readyListener then handleReady b s else s
  | InjEvent.scriptError => handleError (networkErrorMsg src) s
  | InjEvent.timerFire => if s.timerActive then handleError (timeoutErrorMsg timeout) s else s

def injRun (src : String) (timeout : Nat) (s : InjState) (evs : List InjEvent) : InjState :=
  evs.foldl (istep src timeout) s

/-- config.timeout gets the 30000 default when absent (or 0, which is
falsy in the timeout-or-default expression of the source). -/
def effTimeout (t : Option Nat) : Nat :=
  match t with
  | none => 30000
  | some v => if v = 0 then 30000 else v

/-- Injector invariant: the promise is settled exactly when the
hasResolved guard is set, and settlement has torn the listener and the
timer down. -/
def InjInv (s : InjState) : Prop :=
  (s.hasResolved = true ↔ s.result.isSome) ∧
    (s.hasResolved = true → s.readyListener = false ∧ s.timerActive = false)

theorem injInv_start (bento : Option BentoAPI) : InjInv (injectScriptStart bento) := by
  cases bento <;> simp [injectScriptStart, InjInv]

theorem injInv_step (src : String) (t : Nat) (s : InjState) (e : InjEvent)
    (h : InjInv s) : InjInv (istep src t s e) := by
  obtain ⟨h1, h2⟩ := h
  cases e with
  | ready b =>
    cases b <;>
      simp only [istep, handleReady, handleSuccess, handleError, cleanup] <;>
      split <;> try split
    all_goals simp_all [InjInv]
  | scriptError =>
    simp only [istep, handleError, cleanup]
    split
    · exact ⟨h1, h2⟩
    · simp_all [InjInv]
  | timerFire =>
    simp only [istep, handleError, cleanup]
    split <;> try split
    all_goals simp_all [InjInv]

theorem injInv_run (src : String) (t : Nat) (s : InjState) (evs : List InjEvent)
    (h : InjInv s) : InjInv (injRun src t s evs) := by
  induction evs generalizing s with
  | nil => exact h
  | cons e rest ih => exact ih _ (injInv_step src t s e h)

/-- A settled injector state is inert: no event changes it. -/
theorem settled_stable (src : String) (t : Nat) (s : InjState) (e : InjEvent)
    (h : InjInv s) (hs : s.result.isSome) : istep src t s e = s := by
  obtain ⟨h1, h2⟩ := h
  have hr : s.hasResolved = true := h1.mpr hs
  obtain ⟨hl, ht⟩ := h2 hr
  cases e with
  | ready b => simp [istep, hl]
  | scriptError => simp [istep, handleError, hr]
  | timerFire => simp [istep, ht]

/-- From the armed start, any single event settles the promise. -/
theorem armed_step_settles (src : String) (t : Nat) (e : InjEvent) :
    ((istep src t (injectScriptStart none) e).result).isSome = true := by
  cases e with
  | ready b =>
    cases b <;> simp [istep, injectScriptStart, handleReady, handleSuccess, handleError, cleanup]
  | scriptError => simp [istep, injectScriptStart, handleError, cleanup]
  | timerFire => simp [istep, injectScriptStart, handleError, cleanup]

/-- A run from the armed start either performed no event at all or is
settled. -/
theorem armed_run_dichotomy (src : String) (t : Nat) (evs : List InjEvent) :
    injRun src t (injectScriptStart none) evs = injectScriptStart none ∨
      ((injRun src t (injectScriptStart none) evs).result).isSome = true := by
  induction evs using List.reverseRecOn with
  | nil => exact Or.inl rfl
  | append_singleton rest e ih =>
    have hrun : injRun src t (injectScriptStart none) (rest ++ [e])
        = istep src t (injRun src t (injectScriptStart none) rest) e := by
      simp [injRun, List.foldl_append]
    rcases ih with h | h
    · rw [hrun, h]
      exact Or.inr (armed_step_settles src t e)
    · right
      rw [hrun, settled_stable src t _ e (injInv_run src t _ rest (injInv_start none)) h]
      exact h


/-- A settled injector state absorbs any further run. -/
theorem settled_run_stable (src : String) (t : Nat) (s : InjState) (evs : List InjEvent)
    (h : InjInv s) (hs : s.result.isSome) : injRun src t s evs = s := by
  induction evs with
  | nil => rfl
  | cons e rest ih =>
    have h1 : injRun src t s (e :: rest) = injRun src t (istep src t s e) rest := rfl
    rw [h1, settled_stable src t s e h hs]
    exact ih

/-- Claim C2: in the three-way race run by injectScript (readiness
signal, script error signal, timeout timer), whichever fires first
settles the injection promise exactly once; after settlement no
readiness listener or timer remains registered, and any later-firing
signal leaves the state, hence the result, unchanged. -/
theorem injectScript_race_settles_once (bento : Option BentoAPI) (src : String) (t : Nat)
    (evs : List InjEvent) (r : Except String BentoAPI)
    (h : (injRun src t (injectScriptStart bento) evs).result = some r) :
    (injRun src t (injectScriptStart bento) evs).readyListener = false ∧
      (injRun src t (injectScriptStart bento) evs).timerActive = false ∧
      ∀ e, istep src t (injRun src t (injectScriptStart bento) evs) e
          = injRun src t (injectScriptStart bento) evs := by
  have hinv := injInv_run src t _ evs (injInv_start bento)
  have hs : ((injRun src t (injectScriptStart bento) evs).result).isSome := by
    rw [h]; rfl
  have hr := hinv.1.mpr hs
  obtain ⟨hl, ht⟩ := hinv.2 hr
  exact ⟨hl, ht, fun e => settled_stable src t _ e hinv hs⟩

def api0 : BentoAPI :=
  { methods := ["track"], getEmailResult := none, spamCheckOutcome := Except.ok false }

theorem injectScript_race_settles_once_witness :
    (injRun "u" 30000 (injectScriptStart none) [InjEvent.ready (some api0)]).readyListener = false ∧
      istep "u" 30000 (injRun "u" 30000 (injectScriptStart none) [InjEvent.ready (some api0)])
          InjEvent.timerFire
        = injRun "u" 30000 (injectScriptStart none) [InjEvent.ready (some api0)] :=
  ⟨(injectScript_race_settles_once none "u" 30000 [InjEvent.ready (some api0)]
      (Except.ok api0) rfl).1,
    (injectScript_race_settles_once none "u" 30000 [InjEvent.ready (some api0)]
      (Except.ok api0) rfl).2.2 InjEvent.timerFire⟩

/-- Claim C6: if neither the readiness signal nor the error signal ever
fires, the injection promise is rejected with the timeout error.  The
timer is armed for exactly the configured duration (default 30000
milliseconds when the caller gives none, via effTimeout), the promise is
still pending before the timer fires, and the first timer fire settles
it with the timeout error, so the rejection happens neither earlier nor
later than the configured timeout. -/
theorem injectScript_timeout_rejection (src : String) (topt : Option Nat) (evs : List InjEvent)
    (hall : ∀ e ∈ evs, e = InjEvent.timerFire) (hne : evs ≠ []) :
    effTimeout none = 30000 ∧
      (injectScriptStart none).result = none ∧
      (injRun src (effTimeout topt) (injectScriptStart none) evs).result
        = some (Except.error (timeoutErrorMsg (effTimeout topt))) := by
  refine ⟨rfl, rfl, ?_⟩
  cases evs with
  | nil => exact absurd rfl hne
  | cons e rest =>
    have he : e = InjEvent.timerFire := hall e (by simp)
    subst he
    have h1 : istep src (effTimeout topt) (injectScriptStart none) InjEvent.timerFire
        = { hasResolved := true, readyListener := false, timerActive := false
            scriptInDoc := false
            result := some (Except.error (timeoutErrorMsg (effTimeout topt))) } := by
      simp [istep, injectScriptStart, handleError, cleanup]
    have h2 : injRun src (effTimeout topt) (injectScriptStart none)
        (InjEvent.timerFire :: rest)
        = injRun src (effTimeout topt)
            (istep src (effTimeout topt) (injectScriptStart none) InjEvent.timerFire) rest := rfl
    rw [h2, h1, settled_run_stable]
    · have hstep := injInv_step src (effTimeout topt) (injectScriptStart none)
        InjEvent.timerFire (injInv_start none)
      rw [h1] at hstep
      exact hstep
    · rfl

theorem injectScript_timeout_rejection_witness :
    effTimeout none = 30000 ∧
      (injectScriptStart none).result = none ∧
      (injRun "u" (effTimeout none) (injectScriptStart none) [InjEvent.timerFire]).result
        = some (Except.error (timeoutErrorMsg (effTimeout none))) :=
  injectScript_timeout_rejection "u" none [InjEvent.timerFire]
    (by intro e he; simpa using he) (by simp)

/-- Claim C8: at every still-pending state reachable from the armed
start, a failing signal — the readiness event with the binding absent,
the script error event, or the timeout timer — rejects the promise with
the corresponding descriptive error and removes the injected script
element from the document, while the readiness event with the binding
populated resolves with the binding and leaves the script element in
place. -/
theorem injectScript_failure_cleanup (src : String) (t : Nat) (evs : List InjEvent)
    (hp : (injRun src t (injectScriptStart none) evs).result = none) :
    (∀ api,
      (istep src t (injRun src t (injectScriptStart none) evs)
          (InjEvent.ready (some api))).result = some (Except.ok api) ∧
      (istep src t (injRun src t (injectScriptStart none) evs)
          (InjEvent.ready (some api))).scriptInDoc = true) ∧
    ((istep src t (injRun src t (injectScriptStart none) evs)
          (InjEvent.ready none)).result = some (Except.error notInitializedMsg) ∧
      (istep src t (injRun src t (injectScriptStart none) evs)
          (InjEvent.ready none)).scriptInDoc = false) ∧
    ((istep src t (injRun src t (injectScriptStart none) evs)
          InjEvent.scriptError).result = some (Except.error (networkErrorMsg src)) ∧
      (istep src t (injRun src t (injectScriptStart none) evs)
          InjEvent.scriptError).scriptInDoc = false) ∧
    ((istep src t (injRun src t (injectScriptStart none) evs)
          InjEvent.timerFire).result = some (Except.error (timeoutErrorMsg t)) ∧
      (istep src t (injRun src t (injectScriptStart none) evs)
          InjEvent.timerFire).scriptInDoc = false) := by
  have heq : injRun src t (injectScriptStart none) evs = injectScriptStart none := by
    rcases armed_run_dichotomy src t evs with h | h
    · exact h
    · rw [hp] at h
      exact absurd h (by simp)
  rw [heq]
  refine ⟨fun api => ?_, ?_, ?_, ?_⟩ <;>
    simp [istep, injectScriptStart, handleReady, handleSuccess, handleError, cleanup]

theorem injectScript_failure_cleanup_witness :
    ((istep "u" 30000 (injRun "u" 30000 (injectScriptStart none) [])
          (InjEvent.ready none)).result = some (Except.error notInitializedMsg) ∧
      (istep "u" 30000 (injRun "u" 30000 (injectScriptStart none) [])
          (InjEvent.ready none)).scriptInDoc = false) ∧
    ((istep "u" 30000 (injRun "u" 30000 (injectScriptStart none) [])
          (InjEvent.ready (some api0))).result = some (Except.ok api0) ∧
      (istep "u" 30000 (injRun "u" 30000 (injectScriptStart none) [])
          (InjEvent.ready (some api0))).scriptInDoc = true) :=
  ⟨(injectScript_failure_cleanup "u" 30000 [] rfl).2.1,
    (injectScript_failure_cleanup "u" 30000 [] rfl).1 api0⟩

/-! ## Loader (loadBento, resetBento, load-state bookkeeping) -/

/-- The loading configuration (siteUuid required; scriptSrc, the
advanced-installation flag and the timeout optional). -/
structure BentoConfig where
  siteUuid : String
  scriptSrc : Option String
  useAdvancedInstallation : Bool
  timeout : Option Nat
deriving DecidableEq, Repr

/-- Status of the module-level loaderPromise: it stays in place once
resolved (it is the cache a later init call returns), and is cleared on
failure. -/
inductive PromiseStatus
  | pending
  | resolved
deriving DecidableEq, Repr

/-- The module-level loader state: the window.bento slot, the
loaderPromise, loadError and isLoading variables, the number of script
elements the loader appended to the document, and the console output. -/
structure GState where
  windowBento : Option BentoAPI
  loaderPromise : Option PromiseStatus
  loadError : Option String
  isLoading : Bool
  scriptsInjected : Nat
  log : List String
deriving DecidableEq, Repr

def initialState : GState :=
  { windowBento := none, loaderPromise := none, loadError := none
    isLoading := false, scriptsInjected := 0, log := [] }

def configErrorMsg : String :=
  "[BENTO] Invalid or missing siteUuid. Please provide a valid site UUID from your Bento dashboard."

/-- resetBento: unconditionally clear the pending operation, the stored
error and the loading flag. -/
def resetBento (s : GState) : GState :=
  { s with loaderPromise := none, loadError := none, isLoading := false }

/-- The siteUuid validation: falsy (empty) or the placeholder string. -/
def invalidSiteUuid (u : String) : Bool :=
  u == "" || u == "undefined"

/-- Models the URL builtin used for the simple installation: new URL of
the base locator with the site_uuid query parameter set.  The builtin is
external to the repository; it is modeled as appending the parameter. -/
def setSiteUuidParam (base uuid : String) : String :=
  base ++ "?site_uuid=" ++ uuid

def buildScriptUrl (cfg : BentoConfig) : String :=
  if cfg.useAdvancedInstallation then
    "https://app.bentonow.com/" ++ cfg.siteUuid ++ ".js"
  else
    setSiteUuidParam (cfg.scriptSrc.getD "https://fast.bentonow.com") cfg.siteUuid

/-- The observable outcome of one loadBento call: resolve with the
already-populated binding, return the existing loaderPromise, reject
with the configuration error, or start a new injection (carrying the
script locator and the timer duration handed to injectScript). -/
inductive InitResult
  | resolvedExisting (api : BentoAPI)
  | samePending
  | rejectedConfig (msg : String)
  | started (url : String) (timeout : Nat)
deriving DecidableEq, Repr

/-- loadBento: short-circuit on a populated binding, then on an existing
loaderPromise; reset the state when a previous error is stored; validate
the siteUuid; otherwise build the script locator, set the loading flag,
and start the injection (injectScript appends one script element, the
binding being absent here).  The localhost-only console.log and the SSR
guard concern environments outside this model. -/
def loadBento (s : GState) (cfg : BentoConfig) : GState × InitResult :=
  match s.windowBento with
  | some api => (s, InitResult.resolvedExisting api)
  | none =>
    match s.loaderPromise with
    | some _ => (s, InitResult.samePending)
    | none =>
      let s1 := if s.loadError.isSome then resetBento s else s
      if invalidSiteUuid cfg.siteUuid then
        ({ s1 with loadError := some configErrorMsg }, InitResult.rejectedConfig configErrorMsg)
      else
        ({ s1 with
            isLoading := true
            loaderPromise := some PromiseStatus.pending
            scriptsInjected := s1.scriptsInjected + 1 },
          InitResult.started (buildScriptUrl cfg) (effTimeout cfg.timeout))

/-- The then/catch continuations on the loaderPromise: success clears
the loading flag and the stored error; failure clears the loading flag,
stores the error, drops the loaderPromise, logs, and rethrows (the
outward settlement of the promise init returned is the second
component).  The advanced-installation hook only invokes the external
bento-dollar helper to schedule a page view and touches no loader
state. -/
def settleLoad (s : GState) (outcome : Except String BentoAPI) :
    GState × Except String BentoAPI :=
  match outcome with
  | Except.ok api =>
    ({ s with
        isLoading := false
        loadError := none
        loaderPromise := some PromiseStatus.resolved },
      Except.ok api)
  | Except.error e =>
    ({ s with
        isLoading := false
        loadError := some e
        loaderPromise := none
        log := s.log ++ ["[BENTO] Failed to load: " ++ e] },
      Except.error e)

/-! ### Loader traces with load-promise identity

The then/catch continuations of the source are attached to one concrete
load promise at its creation and run when THAT promise settles, whatever
the loaderPromise module variable holds by then: resetBento and a
superseding init do not cancel them.  To embed those interleavings, the
trace-level state gives every started load promise an id (its creation
rank), records which ids have settled (a promise settles at most once),
and lets the variable reference one id or be null. -/

/-- The module state with load-promise identity: the window.bento slot,
which load promise the loaderPromise variable currently references, the
loadError and isLoading variables, the number of script elements
appended, how many load promises have been created (ids 0, 1, ...), the
ids whose continuations have already run, and the console output. -/
structure MState where
  windowBento : Option BentoAPI
  varPromise : Option Nat
  loadError : Option String
  isLoading : Bool
  scriptsInjected : Nat
  started : Nat
  settledIds : List Nat
  log : List String
deriving DecidableEq, Repr

def minitialState : MState :=
  { windowBento := none, varPromise := none, loadError := none
    isLoading := false, scriptsInjected := 0, started := 0
    settledIds := [], log := [] }

def getBentoLoadError (s : MState) : Option String := s.loadError

def isBentoLoading (s : MState) : Bool := s.isLoading

/-- resetBento on the identity-level state: it nulls the variable and
clears the bookkeeping but does not cancel in-flight promises (their
continuations still run later). -/
def resetBentoM (s : MState) : MState :=
  { s with varPromise := none, loadError := none, isLoading := false }

/-- loadBento on the identity-level state, same branch structure as
loadBento above: short-circuit on a populated binding, then on a
non-null loaderPromise variable; reset when an error is stored; validate
the siteUuid; otherwise create the next load promise (the fresh id
s1.started), store it in the variable, set the loading flag and start
the injection. -/
def loadBentoM (s : MState) (cfg : BentoConfig) : MState × InitResult :=
  match s.windowBento with
  | some api => (s, InitResult.resolvedExisting api)
  | none =>
    match s.varPromise with
    | some _ => (s, InitResult.samePending)
    | none =>
      let s1 := if s.loadError.isSome then resetBentoM s else s
      if invalidSiteUuid cfg.siteUuid then
        ({ s1 with loadError := some configErrorMsg }, InitResult.rejectedConfig configErrorMsg)
      else
        ({ s1 with
            isLoading := true
            varPromise := some s1.started
            started := s1.started + 1
            scriptsInjected := s1.scriptsInjected + 1 },
          InitResult.started (buildScriptUrl cfg) (effTimeout cfg.timeout))

/-- The then/catch continuations of load promise i running on its
settlement.  They run at most once and only for a created promise (the
guard models promise semantics, not the loaderPromise variable), and
they assign the module variables unconditionally: success clears the
loading flag and the stored error; failure clears the loading flag,
stores its error, nulls the loaderPromise variable — even when the
variable meanwhile references a newer promise — and logs. -/
def settleContinuation (s : MState) (i : Nat) (o : Except String BentoAPI) : MState :=
  if i < s.started ∧ i ∉ s.settledIds then
    match o with
    | Except.ok _ =>
      { s with
          isLoading := false
          loadError := none
          settledIds := i :: s.settledIds }
    | Except.error e =>
      { s with
          isLoading := false
          loadError := some e
          varPromise := none
          settledIds := i :: s.settledIds
          log := s.log ++ ["[BENTO] Failed to load: " ++ e] }
  else s

/-- The loader-level events the event loop can interleave: an init call,
the settlement of load promise i (running its continuations), the
external script populating window.bento, and a reset call. -/
inductive MEvent
  | initCall (cfg : BentoConfig)
  | settle (i : Nat) (outcome : Except String BentoAPI)
  | bentoAttach (api : BentoAPI)
  | reset
deriving Repr

def mstep (s : MState) (e : MEvent) : MState :=
  match e with
  | MEvent.initCall cfg => (loadBentoM s cfg).1
  | MEvent.settle i o => settleContinuation s i o
  | MEvent.bentoAttach api => { s with windowBento := some api }
  | MEvent.reset => resetBentoM s

def mrun (evs : List MEvent) : MState :=
  evs.foldl mstep minitialState

/-- The load promise the loaderPromise variable references is still
unsettled: the stored pending operation is in flight. -/
def VarPending (s : MState) : Prop :=
  ∃ i, s.varPromise = some i ∧ i ∉ s.settledIds

/-- An event is not a stale settlement: a settle event fires while the
loaderPromise variable still references exactly that promise (and it has
not settled before).  Other events are always fine. -/
def settleOk (s : MState) (e : MEvent) : Prop :=
  match e with
  | MEvent.settle i _ => s.varPromise = some i ∧ i ∉ s.settledIds
  | _ => True

/-- A trace from s contains no stale settlement: every settlement is of
the promise the variable references at that moment. -/
def NoStaleFrom : MState → List MEvent → Prop
  | _, [] => True
  | s, e :: rest => settleOk s e ∧ NoStaleFrom (mstep s e) rest

/-- Stated from the words of the spec: the stored load error after one
more event — a failed attempt (invalid configuration, or the settlement
of the current load failing) stores its error; a reset or a successful
load, and the implicit reset when a new attempt starts, clear it; every
other event leaves it alone. -/
def mspecErrStep (s : MState) (cur : Option String) (e : MEvent) : Option String :=
  match e with
  | MEvent.reset => none
  | MEvent.bentoAttach _ => cur
  | MEvent.settle _ o =>
    match o with
    | Except.ok _ => none
    | Except.error m => some m
  | MEvent.initCall cfg =>
    match (loadBentoM s cfg).2 with
    | InitResult.rejectedConfig m => some m
    | InitResult.started _ _ => none
    | _ => cur

/-- Stated from the words of the spec: the error expected after a whole
event trace, starting from no stored error. -/
def mspecLoadError (evs : List MEvent) : Option String :=
  (evs.foldl (fun p e => (mstep p.1 e, mspecErrStep p.1 p.2 e)) (minitialState, none)).2

def cfgValid : BentoConfig :=
  { siteUuid := "abc", scriptSrc := none, useAdvancedInstallation := false, timeout := none }

/-- The stale interleaving: an init, a reset, a second init, then the
FIRST injection failing — its catch continuation still runs. -/
def staleSettleTrace : List MEvent :=
  [MEvent.initCall cfgValid, MEvent.reset, MEvent.initCall cfgValid,
    MEvent.settle 0 (Except.error "load failed")]

/-- A plain failing load with no interleaving. -/
def simpleFailTrace : List MEvent :=
  [MEvent.initCall cfgValid, MEvent.settle 0 (Except.error "load failed")]

/-- Claim C1: at most one script injection is ever in flight — a
loadBento call made while the binding is already populated returns it
and changes nothing (no injection), and a loadBento call made while a
loaderPromise already exists returns that same promise and changes
nothing (in particular the number of script elements the loader created
is unchanged). -/
theorem loadBento_at_most_one_injection (s : GState) (cfg : BentoConfig) :
    (∀ api, s.windowBento = some api →
      loadBento s cfg = (s, InitResult.resolvedExisting api)) ∧
    (∀ p, s.windowBento = none → s.loaderPromise = some p →
      loadBento s cfg = (s, InitResult.samePending)) := by
  constructor
  · intro api hb
    simp [loadBento, hb]
  · intro p hb hp
    simp [loadBento, hb, hp]

theorem loadBento_at_most_one_injection_witness :
    loadBento { initialState with windowBento := some api0 }
        { siteUuid := "abc", scriptSrc := none, useAdvancedInstallation := false, timeout := none }
      = ({ initialState with windowBento := some api0 }, InitResult.resolvedExisting api0) ∧
    loadBento { initialState with loaderPromise := some PromiseStatus.pending }
        { siteUuid := "abc", scriptSrc := none, useAdvancedInstallation := false, timeout := none }
      = ({ initialState with loaderPromise := some PromiseStatus.pending },
          InitResult.samePending) :=
  ⟨(loadBento_at_most_one_injection _ _).1 api0 rfl,
    (loadBento_at_most_one_injection _ _).2 PromiseStatus.pending rfl rfl⟩

/-- Claim C5: when the binding is absent and no load is pending, an init
call whose siteUuid is empty (the missing case) or the placeholder
string rejects with the descriptive configuration error, stores that
error as the load error, creates no pending operation, and performs no
script injection, leaving the document unmutated. -/
theorem loadBento_invalid_siteUuid_rejects (s : GState) (cfg : BentoConfig)
    (hb : s.windowBento = none) (hp : s.loaderPromise = none)
    (hu : cfg.siteUuid = "" ∨ cfg.siteUuid = "undefined") :
    (loadBento s cfg).2 = InitResult.rejectedConfig configErrorMsg ∧
      (loadBento s cfg).1.loadError = some configErrorMsg ∧
      (loadBento s cfg).1.loaderPromise = none ∧
      (loadBento s cfg).1.scriptsInjected = s.scriptsInjected := by
  have hinv : invalidSiteUuid cfg.siteUuid = true := by
    rcases hu with h | h <;> simp [invalidSiteUuid, h]
  rcases hs : s.loadError.isSome with _ | _ <;>
    simp_all [loadBento, hb, hp, hinv, resetBento]

theorem loadBento_invalid_siteUuid_rejects_witness :
    (loadBento initialState
        { siteUuid := "", scriptSrc := none, useAdvancedInstallation := false
          timeout := none }).2 = InitResult.rejectedConfig configErrorMsg ∧
      (loadBento initialState
        { siteUuid := "", scriptSrc := none, useAdvancedInstallation := false
          timeout := none }).1.loadError = some configErrorMsg ∧
      (loadBento initialState
        { siteUuid := "", scriptSrc := none, useAdvancedInstallation := false
          timeout := none }).1.loaderPromise = none ∧
      (loadBento initialState
        { siteUuid := "", scriptSrc := none, useAdvancedInstallation := false
          timeout := none }).1.scriptsInjected = initialState.scriptsInjected :=
  loadBento_invalid_siteUuid_rejects initialState _ rfl rfl (Or.inl rfl)

/-- One loader event, when it is not a stale settlement, keeps the
stored error in step with the spec-side description, keeps isLoading set
exactly while the stored load promise is unsettled, and preserves the
structural facts that settled ids and the referenced id are created
ids. -/
theorem mstep_inv (s : MState) (cur : Option String) (e : MEvent)
    (hns : settleOk s e)
    (h1 : s.loadError = cur)
    (h2 : s.isLoading = true ↔ VarPending s)
    (h3 : ∀ j ∈ s.settledIds, j < s.started)
    (h4 : ∀ i, s.varPromise = some i → i < s.started) :
    (mstep s e).loadError = mspecErrStep s cur e ∧
      ((mstep s e).isLoading = true ↔ VarPending (mstep s e)) ∧
      (∀ j ∈ (mstep s e).settledIds, j < (mstep s e).started) ∧
      (∀ i, (mstep s e).varPromise = some i → i < (mstep s e).started) := by
  cases e with
  | bentoAttach api =>
    exact ⟨by simp [mstep, mspecErrStep, h1],
      by simpa [mstep, VarPending] using h2,
      by simpa [mstep] using h3,
      by simpa [mstep] using h4⟩
  | reset =>
    exact ⟨by simp [mstep, mspecErrStep, resetBentoM],
      by simp [mstep, resetBentoM, VarPending],
      by simpa [mstep, resetBentoM] using h3,
      by simp [mstep, resetBentoM]⟩
  | settle i o =>
    obtain ⟨hv, hni⟩ := hns
    have hlt : i < s.started := h4 i hv
    have hguard : i < s.started ∧ i ∉ s.settledIds := ⟨hlt, hni⟩
    cases o with
    | ok api =>
      have hred : mstep s (MEvent.settle i (Except.ok api))
          = { s with
              isLoading := false
              loadError := none
              settledIds := i :: s.settledIds } := by
        show settleContinuation s i (Except.ok api) = _
        unfold settleContinuation
        rw [if_pos hguard]
      refine ⟨by rw [hred]; simp [mspecErrStep], ?_, ?_, ?_⟩
      · rw [hred]
        simp [VarPending, hv]
      · rw [hred]
        intro j hj
        rcases List.mem_cons.mp hj with rfl | hj2
        · exact hlt
        · exact h3 j hj2
      · rw [hred]
        intro k hk
        exact h4 k hk
    | error msg =>
      have hred : mstep s (MEvent.settle i (Except.error msg))
          = { s with
              isLoading := false
              loadError := some msg
              varPromise := none
              settledIds := i :: s.settledIds
              log := s.log ++ ["[BENTO] Failed to load: " ++ msg] } := by
        show settleContinuation s i (Except.error msg) = _
        unfold settleContinuation
        rw [if_pos hguard]
      refine ⟨by rw [hred]; simp [mspecErrStep], ?_, ?_, ?_⟩
      · rw [hred]
        simp [VarPending]
      · rw [hred]
        intro j hj
        rcases List.mem_cons.mp hj with rfl | hj2
        · exact hlt
        · exact h3 j hj2
      · rw [hred]
        intro k hk
        exact absurd hk (by simp)
  | initCall cfg =>
    cases hb : s.windowBento with
    | some api =>
      have hred : mstep s (MEvent.initCall cfg) = s := by
        simp [mstep, loadBentoM, hb]
      have hspec : mspecErrStep s cur (MEvent.initCall cfg) = cur := by
        simp [mspecErrStep, loadBentoM, hb]
      rw [hred, hspec]
      exact ⟨h1, h2, h3, h4⟩
    | none =>
      cases hp : s.varPromise with
      | some p =>
        have hred : mstep s (MEvent.initCall cfg) = s := by
          simp [mstep, loadBentoM, hb, hp]
        have hspec : mspecErrStep s cur (MEvent.initCall cfg) = cur := by
          simp [mspecErrStep, loadBentoM, hb, hp]
        rw [hred, hspec]
        exact ⟨h1, h2, h3, h4⟩
      | none =>
        have hload : s.isLoading = false := by
          rcases hL : s.isLoading with _ | _
          · rfl
          · obtain ⟨k, hk, -⟩ := h2.mp hL
            rw [hp] at hk
            exact absurd hk (by simp)
        have hnotin : s.started ∉ s.settledIds :=
          fun hmem => absurd (h3 _ hmem) (lt_irrefl _)
        by_cases hval : invalidSiteUuid cfg.siteUuid = true
        · by_cases herr : s.loadError.isSome
          · refine ⟨?_, ?_, ?_, ?_⟩
            · simp [mstep, mspecErrStep, loadBentoM, hb, hp, hval, herr, resetBentoM]
            · simp [mstep, loadBentoM, hb, hp, hval, herr, resetBentoM, VarPending]
            · simpa [mstep, loadBentoM, hb, hp, hval, herr, resetBentoM] using h3
            · simp [mstep, loadBentoM, hb, hp, hval, herr, resetBentoM]
          · refine ⟨?_, ?_, ?_, ?_⟩
            · simp [mstep, mspecErrStep, loadBentoM, hb, hp, hval, herr]
            · simp [mstep, loadBentoM, hb, hp, hval, herr, VarPending, hload]
            · simpa [mstep, loadBentoM, hb, hp, hval, herr] using h3
            · simp [mstep, loadBentoM, hb, hp, hval, herr, hp]
        · have hvalf : invalidSiteUuid cfg.siteUuid = false := by
            simpa using hval
          by_cases herr : s.loadError.isSome
          · refine ⟨?_, ?_, ?_, ?_⟩
            · simp [mstep, mspecErrStep, loadBentoM, hb, hp, hvalf, herr, resetBentoM]
            · simp [mstep, loadBentoM, hb, hp, hvalf, herr, resetBentoM,
                VarPending, hnotin]
            · intro j hj
              simp [mstep, loadBentoM, hb, hp, hvalf, herr, resetBentoM] at hj ⊢
              exact Nat.lt_succ_of_lt (h3 j hj)
            · intro i hi
              simp [mstep, loadBentoM, hb, hp, hvalf, herr, resetBentoM] at hi
              simp [mstep, loadBentoM, hb, hp, hvalf, herr, resetBentoM, hi]
          · have herrn : s.loadError = none := by
              rcases hE : s.loadError with _ | e
              · rfl
              · rw [hE] at herr
                simp at herr
            refine ⟨?_, ?_, ?_, ?_⟩
            · simp [mstep, mspecErrStep, loadBentoM, hb, hp, hvalf, herr, herrn]
            · simp [mstep, loadBentoM, hb, hp, hvalf, herr, VarPending, hnotin]
            · intro j hj
              simp [mstep, loadBentoM, hb, hp, hvalf, herr] at hj ⊢
              exact Nat.lt_succ_of_lt (h3 j hj)
            · intro i hi
              simp [mstep, loadBentoM, hb, hp, hvalf, herr] at hi
              simp [mstep, loadBentoM, hb, hp, hvalf, herr, hi]

/-- Claim C10 as frozen fails on the code: in the stale interleaving
init, reset, init, then the FIRST injection failing, the catch
continuation of the superseded load still runs — it clears isLoading,
nulls the loaderPromise variable and stores its error.  At the final
quiescent point the second injection (load promise 1 of the 2 created)
is genuinely in flight, yet isBentoLoading is false, and
getBentoLoadError is non-null although the most recent init attempt has
not failed and no reset happened after it started. -/
theorem load_bookkeeping_inconsistent_cex :
    (mrun staleSettleTrace).isLoading = false ∧
      1 < (mrun staleSettleTrace).started ∧
      (1 : Nat) ∉ (mrun staleSettleTrace).settledIds ∧
      (mrun staleSettleTrace).loadError = some "load failed" ∧
      (mrun staleSettleTrace).settledIds = [0] ∧
      (mrun staleSettleTrace).started = 2 := by
  decide

/-- Claim C10 (amended): on every trace with no stale settlement (each
load-promise settlement happens while the loaderPromise variable still
references that promise), the bookkeeping is consistent at every
quiescent point: isBentoLoading is true exactly while the stored load
promise is unsettled, and getBentoLoadError returns exactly the error
the spec-side description predicts — the error of the most recent failed
attempt, cleared by a reset, by a successful load, and by the implicit
reset when a new attempt starts.  In stale interleavings the superseded
catch continuation clobbers all three variables, as the counterexample
shows. -/
theorem load_bookkeeping_consistent_amended (evs : List MEvent)
    (h : NoStaleFrom minitialState evs) :
    getBentoLoadError (mrun evs) = mspecLoadError evs ∧
      (isBentoLoading (mrun evs) = true ↔ VarPending (mrun evs)) := by
  have key : ∀ (l : List MEvent) (s : MState) (cur : Option String),
      NoStaleFrom s l →
      s.loadError = cur →
      (s.isLoading = true ↔ VarPending s) →
      (∀ j ∈ s.settledIds, j < s.started) →
      (∀ i, s.varPromise = some i → i < s.started) →
      (l.foldl mstep s).loadError
          = (l.foldl (fun p e => (mstep p.1 e, mspecErrStep p.1 p.2 e)) (s, cur)).2 ∧
        ((l.foldl mstep s).isLoading = true ↔ VarPending (l.foldl mstep s)) := by
    intro l
    induction l with
    | nil => intro s cur _ hh1 hh2 _ _; exact ⟨hh1, hh2⟩
    | cons e rest ih =>
      intro s cur hns hh1 hh2 hh3 hh4
      have hns2 : settleOk s e ∧ NoStaleFrom (mstep s e) rest := hns
      obtain ⟨k1, k2, k3, k4⟩ := mstep_inv s cur e hns2.1 hh1 hh2 hh3 hh4
      simpa using ih (mstep s e) (mspecErrStep s cur e) hns2.2 k1 k2 k3 k4
  exact key evs minitialState none h rfl (by simp [minitialState, VarPending])
    (by intro j hj; simp [minitialState] at hj)
    (by intro i hi; simp [minitialState] at hi)

theorem load_bookkeeping_consistent_amended_witness :
    getBentoLoadError (mrun simpleFailTrace) = mspecLoadError simpleFailTrace ∧
      (isBentoLoading (mrun simpleFailTrace) = true ↔ VarPending (mrun simpleFailTrace)) :=
  load_bookkeeping_consistent_amended simpleFailTrace
    ⟨trivial, ⟨rfl, by decide⟩, trivial⟩

/-! ## Bounded per-method wait (waitForMethod) and the dispatch proxy -/

/-- The ambient module state a wait callback reads at the moment it
runs: the stored load error and the window.bento slot. -/
structure Env where
  loadError : Option String
  bento : Option BentoAPI
deriving DecidableEq, Repr

def bentoMethodAvailable (b : Option BentoAPI) (m : String) : Bool :=
  match b with
  | some api => hasMethod api m
  | none => false

/-- Object.keys of window.bento filtered to function-valued keys; the
empty list when the binding is absent. -/
def funcKeys (b : Option BentoAPI) : List String :=
  match b with
  | some api => api.methods
  | none => []

def maxAttempts : Nat := 50

/-- The polling interval in time units (setInterval delay). -/
def checkIntervalMs : Nat := 100

def cannotCallMsg (m e : String) : String :=
  "[BENTO] Cannot call " ++ m ++ " - Bento failed to load: " ++ e

def methodAvailableLog (m : String) : String :=
  "[BENTO] Method " ++ m ++ " is now available"

def methodUnavailableMsg (m : String) (avail : List String) : String :=
  "[BENTO] Method " ++ m ++ " not available after 5 seconds. Available methods: "
    ++ String.intercalate ", " avail

/-- State of one waitForMethod call: the attempt counter, whether the
interval and the bento:ready listener are still registered, the
settlement of the returned promise, and the console output. -/
structure WaitState where
  attempts : Nat
  intervalActive : Bool
  listenerActive : Bool
  result : Option (Except String BentoAPI)
  wlog : List String
deriving DecidableEq, Repr

/-- cleanup: remove the bento:ready listener and clear the interval. -/
def wcleanup (s : WaitState) : WaitState :=
  { s with listenerActive := false, intervalActive := false }

/-- checkMethod: bump the attempt counter, reject if a load error has
been stored, resolve if the named method is now a function on the
binding, reject with the diagnostic listing the available method names
once the attempt ceiling is reached, and otherwise keep waiting. -/
def checkMethod (m : String) (env : Env) (s0 : WaitState) : WaitState :=
  let s := { s0 with attempts := s0.attempts + 1 }
  match env.loadError with
  | some e =>
    { wcleanup s with result := some (Except.error (cannotCallMsg m e)) }
  | none =>
    match env.bento with
    | some api =>
      if hasMethod api m then
        { wcleanup s with
            result := some (Except.ok api)
            wlog := s.wlog ++ [methodAvailableLog m] }
      else if s.attempts ≥ maxAttempts then
        { wcleanup s with
            result := some (Except.error (methodUnavailableMsg m (funcKeys env.bento))) }
      else s
    | none =>
      if s.attempts ≥ maxAttempts then
        { wcleanup s with
            result := some (Except.error (methodUnavailableMsg m (funcKeys env.bento))) }
      else s

/-- Entry of waitForMethod: reject at once when a load error is already
stored; resolve at once when the method is already available; otherwise
register the bento:ready listener and the 100 time-unit interval and run
the immediate first check. -/
def waitForMethodStart (m : String) (env : Env) : WaitState :=
  match env.loadError with
  | some e =>
    { attempts := 0, intervalActive := false, listenerActive := false
      result := some (Except.error (cannotCallMsg m e)), wlog := [] }
  | none =>
    match env.bento with
    | some api =>
      if hasMethod api m then
        { attempts := 0, intervalActive := false, listenerActive := false
          result := some (Except.ok api), wlog := [] }
      else
        checkMethod m env
          { attempts := 0, intervalActive := true, listenerActive := true
            result := none, wlog := [] }
    | none =>
      checkMethod m env
        { attempts := 0, intervalActive := true, listenerActive := true
          result := none, wlog := [] }

/-- The two callbacks the event loop can run for one waitForMethod
call: the interval firing (one poll tick, 100 time-units apart) and the
bento:ready event; each reads the ambient state of its moment. -/
inductive WEvent
  | tick (env : Env)
  | readyEvt (env : Env)
deriving DecidableEq, Repr

/-- One event-loop step of the wait.  The interval callback runs only
while the interval is registered; the bento:ready callback runs only
while the listener is registered, and it tears both down before running
one further check. -/
def wstep (m : String) (s : WaitState) (e : WEvent) : WaitState :=
  match e with
  | WEvent.tick env => if s.intervalActive then checkMethod m env s else s
  | WEvent.readyEvt env =>
    if s.listenerActive then checkMethod m env (wcleanup s) else s

def wrun (m : String) (s : WaitState) (evs : List WEvent) : WaitState :=
  evs.foldl (wstep m) s

/-- The then-callback of a deferred generic dispatch: invoke the named
method on the resolved binding with the original arguments, after the
defensive function-type recheck. -/
def dispatchOnResolve (m : String) (args : List Arg) (api : BentoAPI) :
    List (String × List Arg) :=
  if hasMethod api m then [(m, args)] else []

/-! ## The bento proxy (property access and dispatch) -/

/-- The handler classes the proxy get trap returns: the init shortcut,
the synchronous getEmail reader, the promise-returning spamCheck, and
the fire-and-forget generic dispatch for every other property. -/
inductive Handler
  | initH
  | getEmailH
  | spamCheckH
  | genericH (name : String)
deriving DecidableEq, Repr

/-- The proxy get trap, in a browser context (the SSR guard, which
returns a silent no-op for every property when no global scope exists,
concerns environments outside this model). -/
def proxyGet (prop : String) : Handler :=
  if prop = "init" then Handler.initH
  else if prop = "getEmail" then Handler.getEmailH
  else if prop = "spamCheck" then Handler.spamCheckH
  else Handler.genericH prop

/-- The synchronous getEmail reader: call through the binding when it is
populated and getEmail is a function on it, and return undefined
otherwise. -/
def getEmailCall (bento : Option BentoAPI) : Option String :=
  match bento with
  | some api => if hasMethod api "getEmail" then api.getEmailResult else none
  | none => none

/-- What a property invocation hands back to the caller synchronously:
the init control operation itself, a plain undefined return (generic
dispatch never exposes a promise), a synchronous value (getEmail), or a
promise of a boolean (spamCheck). -/
inductive CallerResult
  | initFn
  | unit
  | value (v : Option String)
  | promiseBool (r : Except String Bool)
deriving DecidableEq, Repr

def failedLoadLog (m e : String) : String :=
  "[BENTO] Cannot call " ++ m ++ " - Bento failed to load: " ++ e

def resetHintLog : String :=
  "[BENTO] You may need to check your site configuration or call resetBento() to retry."

def genericMethods : List String :=
  ["identify", "track", "tag", "view", "showChat", "hideChat",
    "openChat", "closeChat", "trackSubdomains", "updateFields"]

/-- The complete observable behavior of invoking one property on the
bento proxy: what the caller receives, the calls performed on the
binding, and the console output.  w is the settlement of the
waitForMethod promise backing the deferred paths, and invErr the error a
dispatched target method throws, if any (caught by the promise chain and
logged). -/
def invokeProp (s : GState) (prop : String) (args : List Arg)
    (w : Except String BentoAPI) (invErr : Option String) :
    CallerResult × List (String × List Arg) × List String :=
  match proxyGet prop with
  | Handler.initH => (CallerResult.initFn, [], [])
  | Handler.getEmailH => (CallerResult.value (getEmailCall s.windowBento), [], [])
  | Handler.spamCheckH =>
    match w with
    | Except.ok api => (CallerResult.promiseBool api.spamCheckOutcome, [("spamCheck", args)], [])
    | Except.error e => (CallerResult.promiseBool (Except.error e), [], [])
  | Handler.genericH m =>
    match s.loadError with
    | some e => (CallerResult.unit, [], [failedLoadLog m e, resetHintLog])
    | none =>
      match w with
      | Except.ok api =>
        (CallerResult.unit, dispatchOnResolve m args api,
          if hasMethod api m then
            (match invErr with
              | some e => [e]
              | none => [])
          else [])
      | Except.error e => (CallerResult.unit, [], [e])

/-- While armed with the method still absent and the ceiling not yet
reached, a poll tick just bumps the attempt counter. -/
theorem tick_absent (m : String) (envA : Env) (a : Nat) (l : List String)
    (h1 : envA.loadError = none) (h2 : bentoMethodAvailable envA.bento m = false)
    (ha : a + 1 < maxAttempts) :
    wstep m { attempts := a, intervalActive := true, listenerActive := true
              result := none, wlog := l } (WEvent.tick envA)
      = { attempts := a + 1, intervalActive := true, listenerActive := true
          result := none, wlog := l } := by
  cases hb : envA.bento with
  | none => simp [wstep, checkMethod, h1, hb, Nat.not_le.mpr ha]
  | some api =>
    have hm : hasMethod api m = false := by simpa [bentoMethodAvailable, hb] using h2
    simp [wstep, checkMethod, h1, hb, hm, Nat.not_le.mpr ha]

/-- Iterating absent poll ticks below the ceiling. -/
theorem run_ticks_absent (m : String) (envA : Env) (k : Nat) (a : Nat) (l : List String)
    (h1 : envA.loadError = none) (h2 : bentoMethodAvailable envA.bento m = false)
    (hk : a + k < maxAttempts) :
    wrun m { attempts := a, intervalActive := true, listenerActive := true
             result := none, wlog := l } (List.replicate k (WEvent.tick envA))
      = { attempts := a + k, intervalActive := true, listenerActive := true
          result := none, wlog := l } := by
  induction k generalizing a with
  | zero => rfl
  | succ n ih =>
    rw [List.replicate_succ]
    have hstep := tick_absent m envA a l h1 h2 (by omega)
    have hrw : wrun m ⟨a, true, true, none, l⟩
          (WEvent.tick envA :: List.replicate n (WEvent.tick envA))
        = wrun m ⟨a + 1, true, true, none, l⟩
            (List.replicate n (WEvent.tick envA)) := by
      show wrun m (wstep m ⟨a, true, true, none, l⟩ (WEvent.tick envA)) _ = _
      rw [hstep]
    rw [hrw, ih (a + 1) (by omega),
      show a + 1 + n = a + (n + 1) from by omega]

/-- A poll tick at a moment where the method is available resolves the
wait, tearing the interval and listener down. -/
theorem tick_resolves (m : String) (envF : Env) (api : BentoAPI) (a : Nat) (l : List String)
    (h1 : envF.loadError = none) (h2 : envF.bento = some api) (h3 : hasMethod api m = true) :
    wstep m { attempts := a, intervalActive := true, listenerActive := true
              result := none, wlog := l } (WEvent.tick envF)
      = { attempts := a + 1, intervalActive := false, listenerActive := false
          result := some (Except.ok api), wlog := l ++ [methodAvailableLog m] } := by
  simp [wstep, checkMethod, h1, h2, h3, wcleanup]

/-- The poll tick that reaches the ceiling with the method still absent
rejects with the diagnostic listing the available method names. -/
theorem tick_expires (m : String) (envA : Env) (l : List String)
    (h1 : envA.loadError = none) (h2 : bentoMethodAvailable envA.bento m = false) :
    wstep m { attempts := maxAttempts - 1, intervalActive := true, listenerActive := true
              result := none, wlog := l } (WEvent.tick envA)
      = { attempts := maxAttempts, intervalActive := false, listenerActive := false
          result := some (Except.error (methodUnavailableMsg m (funcKeys envA.bento)))
          wlog := l } := by
  cases hb : envA.bento with
  | none => simp [wstep, checkMethod, h1, hb, wcleanup, maxAttempts, funcKeys]
  | some api =>
    have hm : hasMethod api m = false := by simpa [bentoMethodAvailable, hb] using h2
    simp [wstep, checkMethod, h1, hb, hm, wcleanup, maxAttempts, funcKeys]

/-- The bento:ready event firing while the method is absent (below the
ceiling) tears the machinery down without settling the promise. -/
theorem ready_tears_down (m : String) (envA : Env) (a : Nat) (l : List String)
    (h1 : envA.loadError = none) (h2 : bentoMethodAvailable envA.bento m = false)
    (ha : a + 1 < maxAttempts) :
    wstep m { attempts := a, intervalActive := true, listenerActive := true
              result := none, wlog := l } (WEvent.readyEvt envA)
      = { attempts := a + 1, intervalActive := false, listenerActive := false
          result := none, wlog := l } := by
  cases hb : envA.bento with
  | none => simp [wstep, checkMethod, h1, hb, wcleanup, Nat.not_le.mpr ha]
  | some api =>
    have hm : hasMethod api m = false := by simpa [bentoMethodAvailable, hb] using h2
    simp [wstep, checkMethod, h1, hb, hm, wcleanup, Nat.not_le.mpr ha]

/-- The armed start of waitForMethod when no error is stored and the
method is absent: the immediate first check has run (attempt 1). -/
theorem waitStart_absent (m : String) (envA : Env)
    (h1 : envA.loadError = none) (h2 : bentoMethodAvailable envA.bento m = false) :
    waitForMethodStart m envA
      = { attempts := 1, intervalActive := true, listenerActive := true
          result := none, wlog := [] } := by
  cases hb : envA.bento with
  | none => simp [waitForMethodStart, h1, hb, checkMethod, maxAttempts]
  | some api =>
    have hm : hasMethod api m = false := by simpa [bentoMethodAvailable, hb] using h2
    simp [waitForMethodStart, h1, hb, hm, checkMethod, maxAttempts]

/-- Claim C3 as frozen fails on the code: starting a wait for track with
no stored error and the binding absent, the readiness signal fires while
the method is still absent — the handler tears down the interval and the
listener and then runs one check that neither resolves nor rejects — and
at the very next poll moment the method IS available, well inside the
50-attempt bound; yet the promise stays permanently unsettled, so the
call is neither dispatched nor dropped-with-diagnostic: nothing is ever
logged. -/
theorem waitForMethod_ready_cancels_poll_cex :
    (wrun "track" (waitForMethodStart "track" { loadError := none, bento := none })
        [WEvent.readyEvt { loadError := none, bento := none },
          WEvent.tick { loadError := none, bento := some api0 }]).result = none ∧
    (wrun "track" (waitForMethodStart "track" { loadError := none, bento := none })
        [WEvent.readyEvt { loadError := none, bento := none },
          WEvent.tick { loadError := none, bento := some api0 }]).intervalActive = false ∧
    (wrun "track" (waitForMethodStart "track" { loadError := none, bento := none })
        [WEvent.readyEvt { loadError := none, bento := none },
          WEvent.tick { loadError := none, bento := some api0 }]).listenerActive = false ∧
    (wrun "track" (waitForMethodStart "track" { loadError := none, bento := none })
        [WEvent.readyEvt { loadError := none, bento := none },
          WEvent.tick { loadError := none, bento := some api0 }]).wlog = [] :=
  ⟨rfl, rfl, rfl, rfl⟩

/-- Claim C3 (amended): for a generic call issued while the target is
not ready and the load has not failed, the proxy waits via the bounded
race — a poll every 100 time-units up to 50 attempts versus the
readiness signal — and, provided the readiness signal does not fire
while the method is still absent: if the named method becomes available
at a poll within the bound, the wait resolves and the call is dispatched
exactly once with its original arguments, and if the bound expires
without the method appearing, the wait rejects with a diagnostic listing
the currently available method names.  If the readiness signal does fire
while the method is absent (below the bound), the wait is torn down
unsettled and the call is dropped silently. -/
theorem waitForMethod_bounded_race_amended (m : String) (api : BentoAPI) (envA envF : Env)
    (k : Nat) (args : List Arg)
    (h1 : envA.loadError = none) (h2 : bentoMethodAvailable envA.bento m = false)
    (h3 : envF.loadError = none) (h4 : envF.bento = some api) (h5 : hasMethod api m = true)
    (hk : k + 2 ≤ maxAttempts) :
    ((wrun m (waitForMethodStart m envA)
        (List.replicate k (WEvent.tick envA) ++ [WEvent.tick envF])).result
      = some (Except.ok api) ∧
      dispatchOnResolve m args api = [(m, args)]) ∧
    (wrun m (waitForMethodStart m envA)
        (List.replicate (maxAttempts - 1) (WEvent.tick envA))).result
      = some (Except.error (methodUnavailableMsg m (funcKeys envA.bento))) ∧
    wstep m (waitForMethodStart m envA) (WEvent.readyEvt envA)
      = { attempts := 2, intervalActive := false, listenerActive := false
          result := none, wlog := [] } := by
  have hstart := waitStart_absent m envA h1 h2
  refine ⟨⟨?_, ?_⟩, ?_, ?_⟩
  · have hpre : wrun m (waitForMethodStart m envA) (List.replicate k (WEvent.tick envA))
        = ⟨1 + k, true, true, none, []⟩ := by
      rw [hstart]
      exact run_ticks_absent m envA k 1 [] h1 h2 (by simp [maxAttempts] at hk ⊢; omega)
    have happ : wrun m (waitForMethodStart m envA)
          (List.replicate k (WEvent.tick envA) ++ [WEvent.tick envF])
        = wstep m (wrun m (waitForMethodStart m envA)
            (List.replicate k (WEvent.tick envA))) (WEvent.tick envF) := by
      simp [wrun, List.foldl_append]
    rw [happ, hpre, tick_resolves m envF api (1 + k) [] h3 h4 h5]
  · simp [dispatchOnResolve, h5]
  · have h49 : maxAttempts - 1 = 48 + 1 := by simp [maxAttempts]
    rw [h49, List.replicate_succ']
    have hpre : wrun m (waitForMethodStart m envA)
          (List.replicate 48 (WEvent.tick envA))
        = ⟨1 + 48, true, true, none, []⟩ := by
      rw [hstart]
      exact run_ticks_absent m envA 48 1 [] h1 h2 (by simp [maxAttempts])
    have happ : wrun m (waitForMethodStart m envA)
          (List.replicate 48 (WEvent.tick envA) ++ [WEvent.tick envA])
        = wstep m (wrun m (waitForMethodStart m envA)
            (List.replicate 48 (WEvent.tick envA))) (WEvent.tick envA) := by
      simp [wrun, List.foldl_append]
    rw [happ, hpre]
    have hexp := tick_expires m envA [] h1 h2
    have h49b : maxAttempts - 1 = 1 + 48 := by simp [maxAttempts]
    rw [h49b] at hexp
    rw [hexp]
  · rw [hstart]
    exact ready_tears_down m envA 1 [] h1 h2 (by simp [maxAttempts])

theorem waitForMethod_bounded_race_amended_witness :
    ((wrun "track" (waitForMethodStart "track" { loadError := none, bento := none })
        (List.replicate 3 (WEvent.tick { loadError := none, bento := none })
          ++ [WEvent.tick { loadError := none, bento := some api0 }])).result
      = some (Except.ok api0) ∧
      dispatchOnResolve "track" ["x"] api0 = [("track", ["x"])]) ∧
    (wrun "track" (waitForMethodStart "track" { loadError := none, bento := none })
        (List.replicate (maxAttempts - 1)
          (WEvent.tick { loadError := none, bento := none }))).result
      = some (Except.error (methodUnavailableMsg "track" (funcKeys none))) ∧
    wstep "track" (waitForMethodStart "track" { loadError := none, bento := none })
        (WEvent.readyEvt { loadError := none, bento := none })
      = { attempts := 2, intervalActive := false, listenerActive := false
          result := none, wlog := [] } :=
  waitForMethod_bounded_race_amended "track" api0
    { loadError := none, bento := none } { loadError := none, bento := some api0 }
    3 ["x"] rfl rfl rfl rfl (by decide) (by decide)

/-- A generic handler invocation hands the caller plain undefined, for
every loader state, wait outcome and invocation outcome. -/
theorem generic_invoke_unit (s : GState) (m : String) (args : List Arg)
    (w : Except String BentoAPI) (invErr : Option String)
    (h : proxyGet m = Handler.genericH m) :
    (invokeProp s m args w invErr).1 = CallerResult.unit := by
  cases hl : s.loadError with
  | some e => simp [invokeProp, h, hl]
  | none => cases w <;> simp [invokeProp, h, hl]

/-- Claim C4: no generic dispatch method (identify, track, tag, view,
showChat, hideChat, openChat, closeChat, trackSubdomains, updateFields)
ever throws or rejects into its caller — the caller always receives
plain undefined, whatever the loader state, wait outcome or invocation
outcome (every failure surfaces only in the console output) — while the
promise spamCheck returns propagates the rejection of its wait, or the
settlement of the underlying spamCheck call, to the caller. -/
theorem generic_dispatch_never_throws :
    (∀ m ∈ genericMethods, proxyGet m = Handler.genericH m ∧
      ∀ (s : GState) (args : List Arg) (w : Except String BentoAPI) (invErr : Option String),
        (invokeProp s m args w invErr).1 = CallerResult.unit) ∧
    (∀ (s : GState) (args : List Arg) (e : String) (invErr : Option String),
      (invokeProp s "spamCheck" args (Except.error e) invErr).1
        = CallerResult.promiseBool (Except.error e)) ∧
    (∀ (s : GState) (args : List Arg) (api : BentoAPI) (invErr : Option String),
      (invokeProp s "spamCheck" args (Except.ok api) invErr).1
        = CallerResult.promiseBool api.spamCheckOutcome) := by
  refine ⟨?_, ?_, ?_⟩
  · intro m hm
    have hg : proxyGet m = Handler.genericH m := by
      simp only [genericMethods, List.mem_cons, List.not_mem_nil, or_false] at hm
      rcases hm with rfl | rfl | rfl | rfl | rfl | rfl | rfl | rfl | rfl | rfl <;> rfl
    exact ⟨hg, fun s args w invErr => generic_invoke_unit s m args w invErr hg⟩
  · intro s args e invErr; rfl
  · intro s args api invErr; rfl

theorem generic_dispatch_never_throws_witness :
    proxyGet "track" = Handler.genericH "track" ∧
    (invokeProp initialState "track" ["x"] (Except.error "boom") none).1
      = CallerResult.unit ∧
    (invokeProp initialState "spamCheck" ["e"] (Except.error "boom") none).1
      = CallerResult.promiseBool (Except.error "boom") :=
  ⟨(generic_dispatch_never_throws.1 "track" (by decide)).1,
    (generic_dispatch_never_throws.1 "track" (by decide)).2 initialState ["x"]
      (Except.error "boom") none,
    generic_dispatch_never_throws.2.1 initialState ["e"] "boom" none⟩

/-- Claim C9: the proxied getEmail never waits or blocks — for every
loader state, with any wait outcome whatsoever (the invocation does not
depend on it), it returns synchronously, performing no deferred call and
logging nothing: the getEmail result of the binding when the binding is
populated with a getEmail function, and undefined otherwise (including
with no prior init at all). -/
theorem getEmail_synchronous (s : GState) (args : List Arg)
    (w : Except String BentoAPI) (invErr : Option String) :
    invokeProp s "getEmail" args w invErr
        = (CallerResult.value (getEmailCall s.windowBento), [], []) ∧
      (s.windowBento = none → getEmailCall s.windowBento = none) ∧
      (∀ api, s.windowBento = some api → hasMethod api "getEmail" = true →
        getEmailCall s.windowBento = api.getEmailResult) ∧
      (∀ api, s.windowBento = some api → hasMethod api "getEmail" = false →
        getEmailCall s.windowBento = none) := by
  refine ⟨rfl, ?_, ?_, ?_⟩
  · intro h; simp [getEmailCall, h]
  · intro api h hm; simp [getEmailCall, h, hm]
  · intro api h hm; simp [getEmailCall, h, hm]

theorem getEmail_synchronous_witness :
    invokeProp initialState "getEmail" [] (Except.error "x") none
        = (CallerResult.value (getEmailCall initialState.windowBento), [], []) ∧
      getEmailCall initialState.windowBento = none :=
  ⟨(getEmail_synchronous initialState [] (Except.error "x") none).1,
    (getEmail_synchronous initialState [] (Except.error "x") none).2.1 rfl⟩

/-- Claim C7: while the load state is failed, every generic dispatch
call is dropped — not queued — after logging the diagnostic pair,
independently of any wait or invocation outcome; resetBento
unconditionally clears the stored error, the pending operation and the
loading flag; an init issued while failed (binding absent, no pending
promise, valid configuration) implicitly resets before retrying — it
starts a fresh injection with the stored error cleared — and once the
retried load succeeds and the binding carries the method, a subsequent
generic call dispatches normally. -/
theorem failed_state_drop_reset_retry (s sF : GState) (cfg : BentoConfig) (m e : String)
    (api : BentoAPI) (args : List Arg) (w w2 : Except String BentoAPI)
    (invErr invErr2 : Option String)
    (hm : proxyGet m = Handler.genericH m)
    (he : sF.loadError = some e)
    (hb : sF.windowBento = none) (hp : sF.loaderPromise = none)
    (hu : invalidSiteUuid cfg.siteUuid = false)
    (hapi : hasMethod api m = true) :
    invokeProp sF m args w invErr
        = (CallerResult.unit, [], [failedLoadLog m e, resetHintLog]) ∧
      invokeProp sF m args w invErr = invokeProp sF m args w2 invErr2 ∧
      (resetBento s).loadError = none ∧
      (resetBento s).loaderPromise = none ∧
      (resetBento s).isLoading = false ∧
      (loadBento sF cfg).2
        = InitResult.started (buildScriptUrl cfg) (effTimeout cfg.timeout) ∧
      (loadBento sF cfg).1.loadError = none ∧
      (loadBento sF cfg).1.isLoading = true ∧
      (loadBento sF cfg).1.loaderPromise = some PromiseStatus.pending ∧
      invokeProp { (settleLoad (loadBento sF cfg).1 (Except.ok api)).1 with
          windowBento := some api } m args (Except.ok api) none
        = (CallerResult.unit, [(m, args)], []) := by
  refine ⟨?_, ?_, ?_, ?_, ?_, ?_, ?_, ?_, ?_, ?_⟩
  · simp [invokeProp, hm, he]
  · simp [invokeProp, hm, he]
  · simp [resetBento]
  · simp [resetBento]
  · simp [resetBento]
  · simp [loadBento, hb, hp, he, hu]
  · simp [loadBento, hb, hp, he, hu, resetBento]
  · simp [loadBento, hb, hp, he, hu]
  · simp [loadBento, hb, hp, he, hu]
  · simp [invokeProp, hm, settleLoad, dispatchOnResolve, hapi]

theorem failed_state_drop_reset_retry_witness :
    invokeProp { initialState with loadError := some "boom" } "track" ["x"]
        (Except.error "later") none
        = (CallerResult.unit, [], [failedLoadLog "track" "boom", resetHintLog]) ∧
      invokeProp { initialState with loadError := some "boom" } "track" ["x"]
          (Except.error "later") none
        = invokeProp { initialState with loadError := some "boom" } "track" ["x"]
            (Except.ok api0) (some "thrown") ∧
      (resetBento { initialState with loadError := some "boom" }).loadError = none ∧
      (resetBento { initialState with loadError := some "boom" }).loaderPromise = none ∧
      (resetBento { initialState with loadError := some "boom" }).isLoading = false ∧
      (loadBento { initialState with loadError := some "boom" }
          { siteUuid := "abc", scriptSrc := none, useAdvancedInstallation := false
            timeout := none }).2
        = InitResult.started
            (buildScriptUrl
              { siteUuid := "abc", scriptSrc := none, useAdvancedInstallation := false
                timeout := none })
            (effTimeout none) ∧
      (loadBento { initialState with loadError := some "boom" }
          { siteUuid := "abc", scriptSrc := none, useAdvancedInstallation := false
            timeout := none }).1.loadError = none ∧
      (loadBento { initialState with loadError := some "boom" }
          { siteUuid := "abc", scriptSrc := none, useAdvancedInstallation := false
            timeout := none }).1.isLoading = true ∧
      (loadBento { initialState with loadError := some "boom" }
          { siteUuid := "abc", scriptSrc := none, useAdvancedInstallation := false
            timeout := none }).1.loaderPromise = some PromiseStatus.pending ∧
      invokeProp
          { (settleLoad
              (loadBento { initialState with loadError := some "boom" }
                { siteUuid := "abc", scriptSrc := none, useAdvancedInstallation := false
                  timeout := none }).1 (Except.ok api0)).1 with
            windowBento := some api0 } "track" ["x"] (Except.ok api0) none
        = (CallerResult.unit, [("track", ["x"])], []) :=
  failed_state_drop_reset_retry initialState { initialState with loadError := some "boom" }
    { siteUuid := "abc", scriptSrc := none, useAdvancedInstallation := false, timeout := none }
    "track" "boom" api0 ["x"] (Except.error "later") (Except.ok api0) none (some "thrown")
    rfl rfl rfl rfl rfl rfl
